import Mathlib

/-!
The GKE certificate-signing relay (`cmd/gcp-controller-manager/csr_signer.go`).

A shallow embedding of `gkeSigner.handle`, `gkeSigner.metricLabel`,
`gkeSigner.sign`, `gkeSigner.webhookError` and `gkeSigner.resultBodyError`.

Go pointers to a `CertificateSigningRequest` are modelled by values: a function
that may write through the pointer returns the object as it is afterwards.
Calls to collaborators (the signer webhook, the store, the metric recorders,
the event recorder) are written, in program order, to a list of `Effect`s.
What the external libraries compute (approval, CSR parsing, the webhook's
responses, JSON decoding, the store's answer) is a field of `Env`, so every
theorem holds for all behaviours of those libraries.  `klog` output is not
modelled.

The rest client of k8s.io/client-go does not return every `rest.Result`: it
sets `Error()` for every HTTP status other than 101 and 200 to 206.
`transformResponse` and `Result.receivable` record that, and the statements
about status codes are made for results the client can return.
-/

namespace CsrSigner

/-- A Go `[]byte`. -/
abbrev Bytes := List (Fin 256)

/-- A Go `error` value, identified with the text `Error()` returns. -/
structure Error where
  msg : String
deriving DecidableEq, Repr

/-- The type `capi.CertificateSigningRequestCondition`. -/
structure CertificateSigningRequestCondition where
  Type_ : String := ""
  Reason : String := ""
  Message : String := ""
deriving DecidableEq, Repr

/-- The type `capi.CertificateSigningRequestSpec`. -/
structure CertificateSigningRequestSpec where
  Request : Bytes := []
  Usages : List String := []
  Username : String := ""
  UID : String := ""
  Groups : List String := []
deriving DecidableEq, Repr

/-- The type `capi.CertificateSigningRequestStatus`. -/
structure CertificateSigningRequestStatus where
  Conditions : List CertificateSigningRequestCondition := []
  Certificate : Bytes := []
deriving DecidableEq, Repr

/-- The type `capi.CertificateSigningRequest`; every field defaults to Go's zero
value, so `{}` is `&capi.CertificateSigningRequest{}`. -/
structure CertificateSigningRequest where
  Name : String := ""
  Namespace : String := ""
  Spec : CertificateSigningRequestSpec := {}
  Status : CertificateSigningRequestStatus := {}
deriving DecidableEq, Repr

/-- The fields of `rest.Result` the signer reads: `Raw()` returns `body`,
`Error()` returns `err`, `StatusCode(&n)` stores `statusCode` in `n`.  The
default is Go's zero `rest.Result`. -/
structure Result where
  body : Bytes := []
  err : Option Error := none
  statusCode : Int := 0
deriving DecidableEq, Repr

/-- The payload of `signResultError.Error`. -/
structure signResultErrorBody where
  Code : Int := 0
  Message : String := ""
  Status : String := ""
deriving DecidableEq, Repr

/-- The structured response body of a failed call to GKE's SignCertificate API. -/
structure signResultError where
  Error : signResultErrorBody := {}
deriving DecidableEq, Repr

/-- Modelled from the spec: the outcomes of `csrmetrics.SigningStatus` that
`handle` records (parse error, sign error, update error, signed); package
`csrmetrics` is not among the sources. -/
inductive SigningStatus where
  | SigningStatusParseError
  | SigningStatusSignError
  | SigningStatusUpdateError
  | SigningStatusSigned
deriving DecidableEq, Repr

/-- Modelled from the spec: the outbound-call outcomes (success/error) of
`csrmetrics.OutboundRPCStatus`; package `csrmetrics` is not among the sources. -/
inductive OutboundRPCStatus where
  | OutboundRPCStatusOK
  | OutboundRPCStatusError
deriving DecidableEq, Repr

/-- One call to a collaborator.
* `signing label st`: the recorder made by `csrmetrics.SigningStartRecorder label`
  is called with `st`;
* `outboundRPC call st`: the recorder made by
  `csrmetrics.OutboundRPCStartRecorder call` is called with `st`;
* `post body`: `s.webhook.RestClient.Post().Body(body).Do()`;
* `updateStatus csr`: `CertificateSigningRequests().UpdateStatus(csr)`;
* `event obj type reason message`: `s.ctx.recorder.Eventf(obj, type, reason, ...)`
  with the formatted message. -/
inductive Effect where
  | signing (label : String) (status : SigningStatus)
  | outboundRPC (call : String) (status : OutboundRPCStatus)
  | post (body : CertificateSigningRequest)
  | updateStatus (csr : CertificateSigningRequest)
  | event (object : CertificateSigningRequest) (eventtype reason message : String)
deriving DecidableEq, Repr

/-- Modelled from the spec: a validator is an immutable rule
`{name, recognize(request, parsedRequest) -> bool, label}`; type `csrValidator`
is declared in a file that is not among the sources.  `X` is the type of a
parsed request, `x509.CertificateRequest`. -/
structure csrValidator (X : Type) where
  name : String
  authFlowLabel : String
  recognize : CertificateSigningRequest → X → Bool

/-- What the signer's surroundings answer.  `X` is `x509.CertificateRequest`.
* `authFlowLabelNone`: the package constant of that name (declared outside the
  sources);
* `IsCertificateRequestApproved`: `certificates.IsCertificateRequestApproved`;
* `ParseCSR`: `certutil.ParseCSR`;
* `Do n csr`: the `rest.Result` of the `n`-th (from 0) `Post().Body(csr).Do()`
  of one `sign` call;
* `Steps`, `shouldRetry`: the number of steps of the backoff inside
  `webhook.WithExponentialBackoff` and `webhook.DefaultShouldRetry`;
* `Into body obj`: `result.Into(obj)` for a result without error whose body is
  `body`: the object afterwards and the error returned;
* `Unmarshal body`: `json.Unmarshal(body, &sre)`, `none` when it returns an error;
* `UpdateStatus csr`: the error returned by the store's `UpdateStatus(csr)`;
* `Quote`: the `%q` verb of `fmt`. -/
structure Env (X : Type) where
  authFlowLabelNone : String
  IsCertificateRequestApproved : CertificateSigningRequest → Bool
  ParseCSR : CertificateSigningRequest → Except Error X
  Do : Nat → CertificateSigningRequest → Result
  Steps : Nat
  shouldRetry : Option Error → Bool
  Into : Bytes → CertificateSigningRequest → CertificateSigningRequest × Option Error
  Unmarshal : Bytes → Option signResultError
  UpdateStatus : CertificateSigningRequest → Option Error
  Quote : String → String

/-- The type `gkeSigner`: `env` stands for the `webhook` and `ctx` fields. -/
structure gkeSigner (X : Type) where
  env : Env X
  validators : List (csrValidator X)

/-- The variables `sign` shares with the function it passes to
`webhook.WithExponentialBackoff`: `statusCode`, `result`, the number of calls
to the signer made so far and the effects so far. -/
structure SignVars where
  statusCode : Int := 0
  result : Result := {}
  calls : Nat := 0
  effects : List Effect := []
deriving DecidableEq, Repr

/-- What `sign` returns, `(csr, nil)` or `(nil, err)`, and its effects. -/
structure SignReturn where
  ret : Except Error CertificateSigningRequest
  effects : List Effect

/-- What `handle` returns (`err`), the caller's request object after the call
(`csr`) and the effects. -/
structure HandleReturn where
  err : Option Error
  csr : CertificateSigningRequest
  effects : List Effect
deriving DecidableEq, Repr

variable {X : Type}

/-- The loop of `gkeSigner.metricLabel` over a list of validators, with the
constant `authFlowLabelNone` as `none`. -/
def metricLabelOf (none : String) (csr : CertificateSigningRequest) (x509cr : X) :
    List (csrValidator X) → String
  | [] => none
  | v :: vs =>
    if v.recognize csr x509cr then v.authFlowLabel
    else metricLabelOf none csr x509cr vs

/-- The method `gkeSigner.metricLabel`. -/
def gkeSigner.metricLabel (s : gkeSigner X) (csr : CertificateSigningRequest) (x509cr : X) :
    String :=
  metricLabelOf s.env.authFlowLabelNone csr x509cr s.validators

/-- The method `gkeSigner.webhookError`: emits the warning event on `csr` and
returns `err`. -/
def gkeSigner.webhookError (_s : gkeSigner X) (csr : CertificateSigningRequest) (err : Error) :
    Error × List Effect :=
  (err, [Effect.event csr "Warning" "SigningError" ("error while calling GKE: " ++ err.msg)])

/-- The method `gkeSigner.resultBodyError`: `none` is Go's `nil`. -/
def gkeSigner.resultBodyError (s : gkeSigner X) (result : Result) : Option Error :=
  match s.env.Unmarshal result.body with
  | some sre => some ⟨"server responded with error: " ++ sre.Error.Message⟩
  | none => none

/-- The function literal `sign` passes to `webhook.WithExponentialBackoff`
(one attempt of the signing call): the shared variables afterwards and the
error it returns. -/
def gkeSigner.signAttempt (s : gkeSigner X) (csr : CertificateSigningRequest) (v : SignVars) :
    SignVars × Option Error :=
  let call := "container.webhook.Sign"
  let result := s.env.Do v.calls csr
  let posted := v.effects ++ [Effect.post csr]
  match result.err with
  | some err =>
    ({ v with result := result, calls := v.calls + 1,
              effects := posted ++ [Effect.outboundRPC call .OutboundRPCStatusError] },
     some err)
  | none =>
    let statusCode := result.statusCode
    if statusCode < 200 ∧ statusCode ≥ 300 then
      ({ statusCode := statusCode, result := result, calls := v.calls + 1,
         effects := posted ++ [Effect.outboundRPC call .OutboundRPCStatusError] },
       none)
    else
      ({ statusCode := statusCode, result := result, calls := v.calls + 1,
         effects := posted ++ [Effect.outboundRPC call .OutboundRPCStatusOK] },
       none)

/-- The library function `webhook.WithExponentialBackoff` under a context that
is never cancelled: `webhookFn` is called at most `steps` times, and again
only while `shouldRetry` accepts the error it returned.  The value the
library returns is not used by `sign`, so only the variables are kept. -/
def WithExponentialBackoff {σ : Type} (shouldRetry : Option Error → Bool)
    (webhookFn : σ → σ × Option Error) : Nat → σ → σ
  | 0, v => v
  | steps + 1, v =>
    let r := webhookFn v
    if shouldRetry r.2 then WithExponentialBackoff shouldRetry webhookFn steps r.1
    else r.1

/-- The shared variables of `sign` when `webhook.WithExponentialBackoff` returns. -/
def gkeSigner.signLoop (s : gkeSigner X) (csr : CertificateSigningRequest) : SignVars :=
  WithExponentialBackoff s.env.shouldRetry (s.signAttempt csr) s.env.Steps {}

/-- The method `gkeSigner.sign`. -/
def gkeSigner.sign (s : gkeSigner X) (csr : CertificateSigningRequest) : SignReturn :=
  let v := s.signLoop csr
  match v.result.err with
  | some err =>
    match s.resultBodyError v.result with
    | some bodyErr =>
      let w := s.webhookError csr bodyErr
      { ret := .error w.1, effects := v.effects ++ w.2 }
    | none =>
      let w := s.webhookError csr err
      { ret := .error w.1, effects := v.effects ++ w.2 }
  | none =>
    if v.statusCode < 200 ∨ v.statusCode ≥ 300 then
      let w := s.webhookError csr
        ⟨"received unsuccessful response code from webhook: " ++ toString v.statusCode⟩
      { ret := .error w.1, effects := v.effects ++ w.2 }
    else
      let into := s.env.Into v.result.body {}
      let resultCSR := into.1
      match into.2 with
      | some err =>
        let w := s.webhookError resultCSR err
        { ret := .error w.1, effects := v.effects ++ w.2 }
      | none =>
        { ret := .ok { csr with Status := { csr.Status with Certificate := resultCSR.Status.Certificate } },
          effects := v.effects }

/-- The method `gkeSigner.handle`. -/
def gkeSigner.handle (s : gkeSigner X) (csr : CertificateSigningRequest) : HandleReturn :=
  if !s.env.IsCertificateRequestApproved csr then
    { err := none, csr := csr, effects := [] }
  else
    match s.env.ParseCSR csr with
    | .error err =>
      { err := some ⟨"unable to parse csr " ++ s.env.Quote csr.Name ++ ": " ++ err.msg⟩,
        csr := csr,
        effects := [Effect.signing s.env.authFlowLabelNone .SigningStatusParseError] }
    | .ok x509cr =>
      let label := s.metricLabel csr x509cr
      let signed := s.sign csr
      match signed.ret with
      | .error err =>
        { err := some ⟨"error auto signing csr: " ++ err.msg⟩,
          csr := csr,
          effects := signed.effects ++ [Effect.signing label .SigningStatusSignError] }
      | .ok csr1 =>
        let call := "k8s.CertificateSigningRequests.updateStatus"
        match s.env.UpdateStatus csr1 with
        | some err =>
          { err := some ⟨"error updating signature for csr: " ++ err.msg⟩,
            csr := csr1,
            effects := signed.effects ++
              [Effect.updateStatus csr1,
               Effect.outboundRPC call .OutboundRPCStatusError,
               Effect.signing label .SigningStatusUpdateError] }
        | none =>
          { err := none,
            csr := csr1,
            effects := signed.effects ++
              [Effect.updateStatus csr1,
               Effect.outboundRPC call .OutboundRPCStatusOK,
               Effect.signing label .SigningStatusSigned] }

deriving instance DecidableEq for Except

/-- The signing outcomes recorded among `es`, in order, each with its label. -/
def signingOutcomes : List Effect → List (String × SigningStatus)
  | [] => []
  | Effect.signing label status :: es => (label, status) :: signingOutcomes es
  | _ :: es => signingOutcomes es

/-- The outbound-call outcomes recorded among `es`, in order, each with its call name. -/
def outboundOutcomes : List Effect → List (String × OutboundRPCStatus)
  | [] => []
  | Effect.outboundRPC call status :: es => (call, status) :: outboundOutcomes es
  | _ :: es => outboundOutcomes es

/-- The objects of the events emitted among `es`, in order. -/
def eventObjects : List Effect → List CertificateSigningRequest
  | [] => []
  | Effect.event object _ _ _ :: es => object :: eventObjects es
  | _ :: es => eventObjects es

/-- Whether `ret` is `(csr, nil)`. -/
def succeeded : Except Error CertificateSigningRequest → Bool
  | .ok _ => true
  | .error _ => false

/-- The `rest.Result` that `Do()` of the rest client (k8s.io/client-go/rest, a
library outside the sources) builds from an HTTP response with status `code`
and body `body`, as its `transformResponse` does: status 101 and the statuses
200 to 206 carry no error, every other status carries the error
`newUnstructuredResponseError` builds from the response. -/
def transformResponse (newUnstructuredResponseError : Int → Bytes → Error)
    (code : Int) (body : Bytes) : Result :=
  if code = 101 then { body := body, statusCode := code }
  else if code < 200 ∨ code > 206 then
    { body := body, err := some (newUnstructuredResponseError code body), statusCode := code }
  else { body := body, statusCode := code }

/-- Whether the rest client can return `r`: a result without error has status
101 or a status from 200 to 206. -/
def Result.receivable (r : Result) : Bool :=
  r.err.isSome || r.statusCode == 101 ||
    (decide (200 ≤ r.statusCode) && decide (r.statusCode ≤ 206))

/-! ## Fixtures -/

/-- The bytes of a string of ASCII characters. -/
def ascii (s : String) : Bytes := s.data.map (fun c => Fin.ofNat c.toNat)

/-- The body `{"error":{"message":"quota exceeded"}}`. -/
def quotaBody : Bytes := ascii "\x7b\"error\":\x7b\"message\":\"quota exceeded\"\x7d\x7d"

/-- A signer environment for the examples: approval is an "Approved" condition
and no "Denied" one, a request parses when its bytes are not empty, the signer
answers 200 with the certificate `CERTDATA`, a non-empty body decodes to an
object named `from-signer` whose certificate is the body, only `quotaBody`
parses as an error envelope, and the store accepts every update. -/
def exampleEnv : Env Unit where
  authFlowLabelNone := "none"
  IsCertificateRequestApproved := fun csr =>
    csr.Status.Conditions.any (fun c => c.Type_ == "Approved") &&
      !csr.Status.Conditions.any (fun c => c.Type_ == "Denied")
  ParseCSR := fun csr =>
    if csr.Spec.Request = [] then .error ⟨"PEM block type must be CERTIFICATE REQUEST"⟩ else .ok ()
  Do := fun _ _ => { body := ascii "CERTDATA", statusCode := 200 }
  Steps := 5
  shouldRetry := fun err => err == some ⟨"connection reset by peer"⟩
  Into := fun body obj =>
    if body = [] then (obj, some ⟨"0-length response"⟩)
    else ({ obj with Name := "from-signer", Status := { obj.Status with Certificate := body } }, none)
  Unmarshal := fun body =>
    if body = quotaBody then some { Error := { Message := "quota exceeded" } } else none
  UpdateStatus := fun _ => none
  Quote := fun s => "\"" ++ s ++ "\""

/-- Two validators that both recognize every request. -/
def exampleValidators : List (csrValidator Unit) :=
  [ { name := "first", authFlowLabel := "first-flow", recognize := fun _ _ => true },
    { name := "second", authFlowLabel := "second-flow", recognize := fun _ _ => true } ]

/-- A signer over `exampleEnv` whose signer webhook answers `respond`. -/
def exampleSigner (respond : Nat → Result) : gkeSigner Unit where
  env := { exampleEnv with Do := fun n _ => respond n }
  validators := exampleValidators

/-- The error the example rest client builds for a failing status. -/
def exampleStatusError (code : Int) (_body : Bytes) : Error :=
  ⟨"the server responded with the status code " ++ toString code⟩

/-- The result of the example rest client for an HTTP response. -/
def restResult (code : Int) (body : Bytes) : Result :=
  transformResponse exampleStatusError code body

/-- An approved request `R1` with non-empty request bytes. -/
def R1 : CertificateSigningRequest where
  Name := "R1"
  Spec := { Request := ascii "PEM", Username := "kubelet" }
  Status := { Conditions := [{ Type_ := "Approved" }] }

/-- An approved request `R2` whose request bytes do not parse. -/
def R2 : CertificateSigningRequest where
  Name := "R2"
  Status := { Conditions := [{ Type_ := "Approved" }] }

/-- A request `R3` that is not approved. -/
def R3 : CertificateSigningRequest where
  Name := "R3"
  Spec := { Request := ascii "PEM" }

/-! ## The retry loop -/

theorem signingOutcomes_append (es fs : List Effect) :
    signingOutcomes (es ++ fs) = signingOutcomes es ++ signingOutcomes fs := by
  induction es with
  | nil => rfl
  | cons e es ih => cases e <;> simp [signingOutcomes, ih]

/-- A property of the loop variables that holds at the start and that every
call of `webhookFn` keeps holds when `WithExponentialBackoff` returns. -/
theorem WithExponentialBackoff_keeps {σ : Type} (P : σ → Prop)
    (shouldRetry : Option Error → Bool) (webhookFn : σ → σ × Option Error)
    (hfn : ∀ v, P v → P (webhookFn v).1) :
    ∀ (steps : Nat) (v : σ), P v → P (WithExponentialBackoff shouldRetry webhookFn steps v) := by
  intro steps
  induction steps with
  | zero => intro v hv; exact hv
  | succ n ih =>
    intro v hv
    unfold WithExponentialBackoff
    by_cases hr : shouldRetry (webhookFn v).2 = true
    · simp only [hr, if_true]
      exact ih _ (hfn v hv)
    · simp only [hr]
      exact hfn v hv

/-- After an attempt, a result without error has its status code in `statusCode`. -/
theorem signAttempt_statusCode (s : gkeSigner X) (csr : CertificateSigningRequest) (v : SignVars) :
    (s.signAttempt csr v).1.result.err = none →
      (s.signAttempt csr v).1.statusCode = (s.signAttempt csr v).1.result.statusCode := by
  cases h : (s.env.Do v.calls csr).err with
  | some e => simp [gkeSigner.signAttempt, h]
  | none =>
    simp only [gkeSigner.signAttempt, h]
    split <;> simp

/-- When the loop returns, a result without error has its status code in
`statusCode`. -/
theorem signLoop_statusCode (s : gkeSigner X) (csr : CertificateSigningRequest)
    (h : (s.signLoop csr).result.err = none) :
    (s.signLoop csr).statusCode = (s.signLoop csr).result.statusCode :=
  WithExponentialBackoff_keeps
    (fun v : SignVars => v.result.err = none → v.statusCode = v.result.statusCode)
    s.env.shouldRetry (s.signAttempt csr) (fun v _ => signAttempt_statusCode s csr v)
    s.env.Steps {} (fun _ => rfl) h

/-- An attempt records no signing outcome. -/
theorem signAttempt_signingOutcomes (s : gkeSigner X) (csr : CertificateSigningRequest)
    (v : SignVars) (h : signingOutcomes v.effects = []) :
    signingOutcomes (s.signAttempt csr v).1.effects = [] := by
  cases hd : (s.env.Do v.calls csr).err with
  | some e => simp [gkeSigner.signAttempt, hd, signingOutcomes_append, h, signingOutcomes]
  | none =>
    simp only [gkeSigner.signAttempt, hd]
    split <;> simp [signingOutcomes_append, h, signingOutcomes]

/-- The loop records no signing outcome. -/
theorem signLoop_signingOutcomes (s : gkeSigner X) (csr : CertificateSigningRequest) :
    signingOutcomes (s.signLoop csr).effects = [] :=
  WithExponentialBackoff_keeps (fun v : SignVars => signingOutcomes v.effects = [])
    s.env.shouldRetry (s.signAttempt csr) (fun v hv => signAttempt_signingOutcomes s csr v hv)
    s.env.Steps {} rfl

/-- The method `sign` records no signing outcome. -/
theorem sign_signingOutcomes (s : gkeSigner X) (csr : CertificateSigningRequest) :
    signingOutcomes (s.sign csr).effects = [] := by
  have h := signLoop_signingOutcomes s csr
  unfold gkeSigner.sign
  simp only [gkeSigner.webhookError]
  split
  · split <;> simp [signingOutcomes_append, h, signingOutcomes]
  · split
    · simp [signingOutcomes_append, h, signingOutcomes]
    · split <;> simp [signingOutcomes_append, h, signingOutcomes]

theorem outboundOutcomes_append (es fs : List Effect) :
    outboundOutcomes (es ++ fs) = outboundOutcomes es ++ outboundOutcomes fs := by
  induction es with
  | nil => rfl
  | cons e es ih => cases e <;> simp [outboundOutcomes, ih]

theorem eventObjects_append (es fs : List Effect) :
    eventObjects (es ++ fs) = eventObjects es ++ eventObjects fs := by
  induction es with
  | nil => rfl
  | cons e es ih => cases e <;> simp [eventObjects, ih]

/-- Every attempt makes one signer call and records one outbound-call outcome
for "container.webhook.Sign": the error outcome when the result carries a
transport error, the success outcome otherwise, whatever the status code. -/
theorem signAttempt_effects (s : gkeSigner X) (csr : CertificateSigningRequest) (v : SignVars) :
    (s.signAttempt csr v).1.effects =
      v.effects ++ [Effect.post csr,
        Effect.outboundRPC "container.webhook.Sign"
          (if (s.env.Do v.calls csr).err = none then .OutboundRPCStatusOK
           else .OutboundRPCStatusError)] := by
  cases hd : (s.env.Do v.calls csr).err with
  | some e => simp [gkeSigner.signAttempt, hd]
  | none =>
    have hnever : ¬ ((s.env.Do v.calls csr).statusCode < 200 ∧
        (s.env.Do v.calls csr).statusCode ≥ 300) := by omega
    simp [gkeSigner.signAttempt, hd, hnever]

/-- The loop emits no event. -/
theorem signLoop_eventObjects (s : gkeSigner X) (csr : CertificateSigningRequest) :
    eventObjects (s.signLoop csr).effects = [] :=
  WithExponentialBackoff_keeps (fun v : SignVars => eventObjects v.effects = [])
    s.env.shouldRetry (s.signAttempt csr)
    (fun v hv => by
      show eventObjects (s.signAttempt csr v).1.effects = []
      rw [signAttempt_effects, eventObjects_append, hv]; rfl)
    s.env.Steps {} rfl

/-- A failing `sign` emits exactly one event.  Its object is the request passed
to `sign` when the failure is a transport error, a structured server error or
a status code outside [200,299]; when a response with a status code in
[200,299] fails to decode, its object is the object `Into` was given. -/
theorem sign_error_event_object (s : gkeSigner X) (csr : CertificateSigningRequest) (e : Error)
    (hfail : (s.sign csr).ret = .error e) :
    eventObjects (s.sign csr).effects =
      [if (s.signLoop csr).result.err = none ∧ 200 ≤ (s.signLoop csr).statusCode ∧
            (s.signLoop csr).statusCode < 300
        then (s.env.Into (s.signLoop csr).result.body {}).1 else csr] := by
  have hloop := signLoop_eventObjects s csr
  revert hfail
  unfold gkeSigner.sign
  simp only [gkeSigner.webhookError]
  cases herr : (s.signLoop csr).result.err with
  | some err =>
    intro _
    simp only []
    split <;> simp [eventObjects_append, hloop, eventObjects]
  | none =>
    simp only []
    by_cases hrange : (s.signLoop csr).statusCode < 200 ∨ (s.signLoop csr).statusCode ≥ 300
    · intro _
      have hno : ¬ (200 ≤ (s.signLoop csr).statusCode ∧ (s.signLoop csr).statusCode < 300) := by
        omega
      simp [hrange, hno, eventObjects_append, hloop, eventObjects]
    · have hyes : 200 ≤ (s.signLoop csr).statusCode ∧ (s.signLoop csr).statusCode < 300 := by
        omega
      simp only [hrange, if_false, hyes, and_self, if_true]
      split
      · intro _
        simp [eventObjects_append, hloop, eventObjects]
      · intro h
        cases h

/-- Retry: when the first two attempts end in an error that `shouldRetry`
accepts and the third answers 200, `sign` makes three signer calls, records
three outbound-call outcomes and succeeds. -/
theorem sign_retries_until_success :
    (exampleSigner (fun n =>
        if n < 2 then { err := some ⟨"connection reset by peer"⟩ }
        else { body := ascii "CERTDATA", statusCode := 200 })).sign R1 =
      { ret := .ok { R1 with Status := { R1.Status with Certificate := ascii "CERTDATA" } },
        effects :=
          [Effect.post R1, Effect.outboundRPC "container.webhook.Sign" .OutboundRPCStatusError,
           Effect.post R1, Effect.outboundRPC "container.webhook.Sign" .OutboundRPCStatusError,
           Effect.post R1, Effect.outboundRPC "container.webhook.Sign" .OutboundRPCStatusOK] } := by
  rfl

/-- What the rest client builds is receivable. -/
theorem transformResponse_receivable (mkErr : Int → Bytes → Error) (code : Int) (body : Bytes) :
    (transformResponse mkErr code body).receivable = true := by
  unfold transformResponse
  by_cases h101 : code = 101
  · simp [h101, Result.receivable]
  · by_cases hfail : code < 200 ∨ code > 206
    · simp [h101, hfail, Result.receivable]
    · have hlo : 200 ≤ code := by omega
      have hhi : code ≤ 206 := by omega
      simp [h101, hfail, Result.receivable, hlo, hhi]

/-- A receivable result without error has status 101 or a status from 200 to 206. -/
theorem receivable_status (r : Result) (hrecv : r.receivable = true) (herr : r.err = none) :
    r.statusCode = 101 ∨ (200 ≤ r.statusCode ∧ r.statusCode ≤ 206) := by
  simpa [Result.receivable, herr] using hrecv

/-- A result that carries an error makes `sign` fail. -/
theorem sign_fails_on_error (s : gkeSigner X) (csr : CertificateSigningRequest) (e : Error)
    (herr : (s.signLoop csr).result.err = some e) : succeeded (s.sign csr).ret = false := by
  unfold gkeSigner.sign
  simp only [herr]
  split <;> rfl

/-- A status code outside [200,299] makes `sign` fail, whatever the body. -/
theorem sign_fails_outside_2xx (s : gkeSigner X) (csr : CertificateSigningRequest)
    (hout : ¬ (200 ≤ (s.signLoop csr).result.statusCode ∧
      (s.signLoop csr).result.statusCode ≤ 299)) : succeeded (s.sign csr).ret = false := by
  cases herr : (s.signLoop csr).result.err with
  | some e => exact sign_fails_on_error s csr e herr
  | none =>
    have hcode := signLoop_statusCode s csr herr
    have hrange : (s.signLoop csr).statusCode < 200 ∨ (s.signLoop csr).statusCode ≥ 300 := by
      rw [hcode]; omega
    unfold gkeSigner.sign
    simp only [herr, hrange, if_true]
    rfl

/-- Without error, with a status code in [200,299] and a body that decodes,
`sign` succeeds. -/
theorem sign_succeeds_inside_2xx (s : gkeSigner X) (csr : CertificateSigningRequest)
    (herr : (s.signLoop csr).result.err = none)
    (hdec : (s.env.Into (s.signLoop csr).result.body {}).2 = none)
    (hin : 200 ≤ (s.signLoop csr).result.statusCode ∧ (s.signLoop csr).result.statusCode ≤ 299) :
    succeeded (s.sign csr).ret = true := by
  have hcode := signLoop_statusCode s csr herr
  have hrange : ¬ ((s.signLoop csr).statusCode < 200 ∨ (s.signLoop csr).statusCode ≥ 300) := by
    rw [hcode]; omega
  unfold gkeSigner.sign
  simp only [herr, hrange, if_false, hdec]
  rfl

/-! ## The signing client -/

/-- C1: when the signer's response has no transport error, a status code in
[200,299] and a body that decodes without error to an object whose status
certificate is `C`, `sign` returns no error and returns the input request with
`Status.Certificate` set to `C`: every other field is the input's, and nothing
else of the decoded object is used. -/
theorem sign_success_changes_only_certificate (s : gkeSigner X)
    (csr obj : CertificateSigningRequest) (C : Bytes)
    (herr : (s.signLoop csr).result.err = none)
    (hlo : 200 ≤ (s.signLoop csr).result.statusCode)
    (hhi : (s.signLoop csr).result.statusCode ≤ 299)
    (hdec : s.env.Into (s.signLoop csr).result.body {} = (obj, none))
    (hC : obj.Status.Certificate = C) :
    (s.sign csr).ret =
      .ok { Name := csr.Name, Namespace := csr.Namespace, Spec := csr.Spec,
            Status := { Conditions := csr.Status.Conditions, Certificate := C } } := by
  have hcode := signLoop_statusCode s csr herr
  have hrange : ¬ ((s.signLoop csr).statusCode < 200 ∨ (s.signLoop csr).statusCode ≥ 300) := by
    rw [hcode]; omega
  unfold gkeSigner.sign
  simp only [herr, hrange, if_false, hdec, hC]

theorem sign_success_changes_only_certificate_witness :
    ((exampleSigner (fun _ => { body := ascii "CERTDATA", statusCode := 200 })).signLoop R1).result
        = { body := ascii "CERTDATA", statusCode := 200 } ∧
    ((exampleSigner (fun _ => { body := ascii "CERTDATA", statusCode := 200 })).sign R1).ret =
      .ok { Name := "R1", Namespace := "",
            Spec := { Request := ascii "PEM", Username := "kubelet" },
            Status := { Conditions := [{ Type_ := "Approved" }], Certificate := ascii "CERTDATA" } } :=
  ⟨by decide,
   sign_success_changes_only_certificate
     (exampleSigner (fun _ => { body := ascii "CERTDATA", statusCode := 200 })) R1
     { Name := "from-signer", Status := { Certificate := ascii "CERTDATA" } } (ascii "CERTDATA")
     (by decide) (by decide) (by decide) (by decide) (by decide)⟩

/-- C2, as the code has it: for a response the rest client can return whose
body decodes, `sign` succeeds exactly when `Error()` is nil and the status code
is in [200,299], that is, as the client sets `Error()` for every status above
206, exactly when `Error()` is nil and the status code is in [200,206]; status
200 without error is a success, 299, 199 and 300 are failures; and for a
status code outside [200,299] `sign` returns an error whatever the body. -/
theorem sign_succeeds_iff_no_error_and_status_2xx (s : gkeSigner X)
    (csr : CertificateSigningRequest)
    (hrecv : (s.signLoop csr).result.receivable = true) :
    ((s.env.Into (s.signLoop csr).result.body {}).2 = none →
      ((succeeded (s.sign csr).ret = true ↔
          (s.signLoop csr).result.err = none ∧ 200 ≤ (s.signLoop csr).result.statusCode ∧
            (s.signLoop csr).result.statusCode ≤ 299) ∧
        (succeeded (s.sign csr).ret = true ↔
          (s.signLoop csr).result.err = none ∧ 200 ≤ (s.signLoop csr).result.statusCode ∧
            (s.signLoop csr).result.statusCode ≤ 206) ∧
        ((s.signLoop csr).result.err = none → (s.signLoop csr).result.statusCode = 200 →
          succeeded (s.sign csr).ret = true))) ∧
    ((s.signLoop csr).result.statusCode = 299 → succeeded (s.sign csr).ret = false) ∧
    ((s.signLoop csr).result.statusCode = 199 → succeeded (s.sign csr).ret = false) ∧
    ((s.signLoop csr).result.statusCode = 300 → succeeded (s.sign csr).ret = false) ∧
    (¬ (200 ≤ (s.signLoop csr).result.statusCode ∧ (s.signLoop csr).result.statusCode ≤ 299) →
      succeeded (s.sign csr).ret = false) := by
  have hok : succeeded (s.sign csr).ret = true →
      (s.signLoop csr).result.err = none ∧ 200 ≤ (s.signLoop csr).result.statusCode ∧
        (s.signLoop csr).result.statusCode ≤ 206 := by
    intro hs
    cases herr : (s.signLoop csr).result.err with
    | some e =>
      rw [sign_fails_on_error s csr e herr] at hs
      exact absurd hs Bool.false_ne_true
    | none =>
      have hstat := receivable_status _ hrecv herr
      have hin : 200 ≤ (s.signLoop csr).result.statusCode ∧
          (s.signLoop csr).result.statusCode ≤ 299 := by
        by_contra hno
        rw [sign_fails_outside_2xx s csr hno] at hs
        exact absurd hs Bool.false_ne_true
      exact ⟨rfl, by omega, by omega⟩
  have h299 : (s.signLoop csr).result.statusCode = 299 → succeeded (s.sign csr).ret = false := by
    intro h
    cases hs : succeeded (s.sign csr).ret with
    | false => rfl
    | true =>
      have := hok hs
      omega
  refine ⟨fun hdec => ⟨⟨fun hs => ?_, fun h => ?_⟩, ⟨hok, fun h => ?_⟩, fun herr h => ?_⟩, h299,
    fun h => sign_fails_outside_2xx s csr (by omega),
    fun h => sign_fails_outside_2xx s csr (by omega),
    sign_fails_outside_2xx s csr⟩
  · have h3 := hok hs
    exact ⟨h3.1, h3.2.1, by omega⟩
  · exact sign_succeeds_inside_2xx s csr h.1 hdec h.2
  · exact sign_succeeds_inside_2xx s csr h.1 hdec ⟨h.2.1, by omega⟩
  · exact sign_succeeds_inside_2xx s csr herr hdec (by omega)

theorem sign_succeeds_iff_no_error_and_status_2xx_witness :
    succeeded ((exampleSigner (fun _ => restResult 200 (ascii "CERTDATA"))).sign R1).ret = true ∧
    succeeded ((exampleSigner (fun _ => restResult 299 (ascii "CERTDATA"))).sign R1).ret = false ∧
    succeeded ((exampleSigner (fun _ => restResult 199 (ascii "CERTDATA"))).sign R1).ret = false ∧
    succeeded ((exampleSigner (fun _ => restResult 300 (ascii "CERTDATA"))).sign R1).ret = false ∧
    succeeded ((exampleSigner (fun _ => restResult 500 quotaBody)).sign R1).ret = false :=
  ⟨((sign_succeeds_iff_no_error_and_status_2xx
      (exampleSigner (fun _ => restResult 200 (ascii "CERTDATA"))) R1 (by decide)).1
      (by decide)).2.2 (by decide) (by decide),
   (sign_succeeds_iff_no_error_and_status_2xx
      (exampleSigner (fun _ => restResult 299 (ascii "CERTDATA"))) R1 (by decide)).2.1 (by decide),
   (sign_succeeds_iff_no_error_and_status_2xx
      (exampleSigner (fun _ => restResult 199 (ascii "CERTDATA"))) R1 (by decide)).2.2.1
      (by decide),
   (sign_succeeds_iff_no_error_and_status_2xx
      (exampleSigner (fun _ => restResult 300 (ascii "CERTDATA"))) R1 (by decide)).2.2.2.1
      (by decide),
   (sign_succeeds_iff_no_error_and_status_2xx
      (exampleSigner (fun _ => restResult 500 quotaBody)) R1 (by decide)).2.2.2.2 (by decide)⟩

/-- C2 fails as stated: an HTTP response with status 299 and a body that
decodes is returned by the rest client with `Error()` set, and `sign` fails on
it, so 299 is not a success. -/
theorem sign_status_299_counterexample :
    ((exampleSigner (fun _ => restResult 299 (ascii "CERTDATA"))).signLoop R1).result =
      { body := ascii "CERTDATA",
        err := some ⟨"the server responded with the status code 299"⟩,
        statusCode := 299 } ∧
    (exampleEnv.Into (ascii "CERTDATA") {}).2 = none ∧
    succeeded ((exampleSigner (fun _ => restResult 299 (ascii "CERTDATA"))).sign R1).ret = false ∧
    ((exampleSigner (fun _ => restResult 299 (ascii "CERTDATA"))).sign R1).ret =
      .error ⟨"the server responded with the status code 299"⟩ := by
  refine ⟨by decide, by decide, by decide, by decide⟩

/-! ## The orchestrator -/

/-- C3: for a request that is not approved, `handle` returns nil, has no effect
at all (no signing outcome, no outbound-call outcome, no signer call, no
`UpdateStatus` call, no event) and leaves the request as it was. -/
theorem handle_unapproved_is_noop (s : gkeSigner X) (csr : CertificateSigningRequest)
    (happ : s.env.IsCertificateRequestApproved csr = false) :
    s.handle csr = { err := none, csr := csr, effects := [] } := by
  unfold gkeSigner.handle
  simp [happ]

theorem handle_unapproved_is_noop_witness :
    exampleEnv.IsCertificateRequestApproved R3 = false ∧
    (exampleSigner (fun _ => { body := ascii "CERTDATA", statusCode := 200 })).handle R3 =
      { err := none, csr := R3, effects := [] } :=
  ⟨by decide,
   handle_unapproved_is_noop
     (exampleSigner (fun _ => { body := ascii "CERTDATA", statusCode := 200 })) R3 (by decide)⟩

/-- C4: for an approved request, whatever parsing, `sign` and `UpdateStatus`
return, `handle` records exactly one signing outcome, and it is the final state
reached: parse error when parsing failed, sign error when parsing succeeded and
`sign` failed, update error when `sign` succeeded and `UpdateStatus` failed,
signed when all three succeeded; and `handle` returns nil exactly when the
outcome is signed. -/
theorem handle_records_one_final_outcome (s : gkeSigner X) (csr : CertificateSigningRequest)
    (happ : s.env.IsCertificateRequestApproved csr = true) :
    ∃ label status,
      signingOutcomes (s.handle csr).effects = [(label, status)] ∧
      (∀ e, s.env.ParseCSR csr = .error e → status = .SigningStatusParseError) ∧
      (∀ x e, s.env.ParseCSR csr = .ok x → (s.sign csr).ret = .error e →
        status = .SigningStatusSignError) ∧
      (∀ x csr1 e, s.env.ParseCSR csr = .ok x → (s.sign csr).ret = .ok csr1 →
        s.env.UpdateStatus csr1 = some e → status = .SigningStatusUpdateError) ∧
      (∀ x csr1, s.env.ParseCSR csr = .ok x → (s.sign csr).ret = .ok csr1 →
        s.env.UpdateStatus csr1 = none → status = .SigningStatusSigned) ∧
      ((s.handle csr).err = none ↔ status = .SigningStatusSigned) := by
  have hsign := sign_signingOutcomes s csr
  unfold gkeSigner.handle
  simp only [happ, Bool.not_true, Bool.false_eq_true, if_false]
  cases hp : s.env.ParseCSR csr with
  | error e =>
    exact ⟨s.env.authFlowLabelNone, .SigningStatusParseError, by simp [signingOutcomes]⟩
  | ok x =>
    cases hs : (s.sign csr).ret with
    | error e =>
      exact ⟨s.metricLabel csr x, .SigningStatusSignError,
        by simp [signingOutcomes_append, hsign, signingOutcomes]⟩
    | ok csr1 =>
      cases hu : s.env.UpdateStatus csr1 with
      | some e =>
        refine ⟨s.metricLabel csr x, .SigningStatusUpdateError, ?_⟩
        simp [signingOutcomes_append, hsign, signingOutcomes, hu]
      | none =>
        refine ⟨s.metricLabel csr x, .SigningStatusSigned, ?_⟩
        simp [signingOutcomes_append, hsign, signingOutcomes, hu]
        intro _ csr2 e _ hc
        subst hc
        simp [hu]

theorem handle_records_one_final_outcome_witness :
    signingOutcomes
        ((exampleSigner (fun _ => { body := ascii "CERTDATA", statusCode := 200 })).handle R1).effects
      = [("first-flow", .SigningStatusSigned)] ∧
    ∃ label status,
      signingOutcomes
        ((exampleSigner (fun _ => { body := ascii "CERTDATA", statusCode := 200 })).handle R1).effects
        = [(label, status)] ∧
      (((exampleSigner (fun _ => { body := ascii "CERTDATA", statusCode := 200 })).handle R1).err
        = none ↔ status = .SigningStatusSigned) :=
  ⟨by decide,
   (handle_records_one_final_outcome
      (exampleSigner (fun _ => { body := ascii "CERTDATA", statusCode := 200 })) R1
      (by decide)).imp
     (fun _ h => h.imp (fun _ h2 => ⟨h2.1, h2.2.2.2.2.2⟩))⟩

/-- C5: for an approved request whose request bytes fail to parse, `handle`
returns a non-nil error and its only effect is one signing outcome, the parse
error, under the label `authFlowLabelNone`: no signer call, no `UpdateStatus`
call, no outbound-call outcome and no event; the request is left as it was. -/
theorem handle_parse_error (s : gkeSigner X) (csr : CertificateSigningRequest) (e : Error)
    (happ : s.env.IsCertificateRequestApproved csr = true)
    (hparse : s.env.ParseCSR csr = .error e) :
    (s.handle csr).err ≠ none ∧
    (s.handle csr).effects =
      [Effect.signing s.env.authFlowLabelNone .SigningStatusParseError] ∧
    signingOutcomes (s.handle csr).effects =
      [(s.env.authFlowLabelNone, .SigningStatusParseError)] ∧
    outboundOutcomes (s.handle csr).effects = [] ∧
    eventObjects (s.handle csr).effects = [] ∧
    (s.handle csr).csr = csr := by
  unfold gkeSigner.handle
  simp [happ, hparse, signingOutcomes, outboundOutcomes, eventObjects]

theorem handle_parse_error_witness :
    exampleEnv.IsCertificateRequestApproved R2 = true ∧
    exampleEnv.ParseCSR R2 = .error ⟨"PEM block type must be CERTIFICATE REQUEST"⟩ ∧
    ((exampleSigner (fun _ => { body := ascii "CERTDATA", statusCode := 200 })).handle R2).effects =
      [Effect.signing "none" .SigningStatusParseError] :=
  ⟨by decide, by decide,
   (handle_parse_error
      (exampleSigner (fun _ => { body := ascii "CERTDATA", statusCode := 200 })) R2
      ⟨"PEM block type must be CERTIFICATE REQUEST"⟩ (by decide) (by decide)).2.1⟩

/-! ## Failures of the signing call -/

/-- C6, as the code has it: for a response the rest client can return whose
status code is outside [200,299]: when the client reports it as an error `e`
(every such status but 101), `sign` applies the body-parsing fallback, so a
body that parses as the error envelope gives the error "server responded with
error: " followed by the envelope's message, and a body that does not parse
gives `e` itself; when the client reports no error (status 101), the body is
not parsed and `sign` returns the error "received unsuccessful response code
from webhook: 101". -/
theorem sign_failing_status_error (s : gkeSigner X) (csr : CertificateSigningRequest)
    (hrecv : (s.signLoop csr).result.receivable = true)
    (hout : ¬ (200 ≤ (s.signLoop csr).result.statusCode ∧
      (s.signLoop csr).result.statusCode ≤ 299)) :
    (∀ e, (s.signLoop csr).result.err = some e →
      (∀ sre, s.env.Unmarshal (s.signLoop csr).result.body = some sre →
        (s.sign csr).ret = .error ⟨"server responded with error: " ++ sre.Error.Message⟩) ∧
      (s.env.Unmarshal (s.signLoop csr).result.body = none → (s.sign csr).ret = .error e)) ∧
    ((s.signLoop csr).result.err = none →
      (s.signLoop csr).result.statusCode = 101 ∧
      (s.sign csr).ret = .error ⟨"received unsuccessful response code from webhook: 101"⟩) := by
  refine ⟨fun e herr => ⟨fun sre hsre => ?_, fun hnone => ?_⟩, fun herr => ?_⟩
  · unfold gkeSigner.sign
    simp only [herr, gkeSigner.resultBodyError, hsre, gkeSigner.webhookError]
  · unfold gkeSigner.sign
    simp only [herr, gkeSigner.resultBodyError, hnone, gkeSigner.webhookError]
  · have hstat := receivable_status _ hrecv herr
    have h101 : (s.signLoop csr).result.statusCode = 101 := by omega
    have hcode := signLoop_statusCode s csr herr
    have hrange : (s.signLoop csr).statusCode < 200 ∨ (s.signLoop csr).statusCode ≥ 300 := by
      rw [hcode]; omega
    refine ⟨h101, ?_⟩
    unfold gkeSigner.sign
    simp only [herr, hrange, if_true, gkeSigner.webhookError]
    rw [hcode, h101]
    rfl

theorem sign_failing_status_error_witness :
    ((exampleSigner (fun _ => restResult 500 quotaBody)).sign R1).ret =
      .error ⟨"server responded with error: quota exceeded"⟩ ∧
    ((exampleSigner (fun _ => restResult 500 (ascii "oops"))).sign R1).ret =
      .error ⟨"the server responded with the status code 500"⟩ ∧
    ((exampleSigner (fun _ => restResult 101 quotaBody)).sign R1).ret =
      .error ⟨"received unsuccessful response code from webhook: 101"⟩ :=
  ⟨((sign_failing_status_error (exampleSigner (fun _ => restResult 500 quotaBody)) R1
      (by decide) (by decide)).1 ⟨"the server responded with the status code 500"⟩ (by decide)).1
      { Error := { Message := "quota exceeded" } } (by decide),
   ((sign_failing_status_error (exampleSigner (fun _ => restResult 500 (ascii "oops"))) R1
      (by decide) (by decide)).1 ⟨"the server responded with the status code 500"⟩ (by decide)).2
      (by decide),
   ((sign_failing_status_error (exampleSigner (fun _ => restResult 101 quotaBody)) R1
      (by decide) (by decide)).2 (by decide)).2⟩

/-- C6 fails as stated: an HTTP response with status 101 is returned by the rest
client without error; its body parses as the error envelope with message
"quota exceeded", yet the error `sign` returns is the status-code message,
which does not contain "quota exceeded". -/
theorem sign_status_101_body_fallback_counterexample :
    ((exampleSigner (fun _ => restResult 101 quotaBody)).signLoop R1).result
        = { body := quotaBody, statusCode := 101 } ∧
    ((exampleSigner (fun _ => restResult 101 quotaBody)).signLoop R1).result.receivable = true ∧
    (exampleSigner (fun _ => restResult 101 quotaBody)).env.Unmarshal quotaBody
        = some { Error := { Message := "quota exceeded" } } ∧
    ((exampleSigner (fun _ => restResult 101 quotaBody)).sign R1).ret =
      .error ⟨"received unsuccessful response code from webhook: 101"⟩ ∧
    ¬ ("quota exceeded".data <:+: "received unsuccessful response code from webhook: 101".data) := by
  refine ⟨by decide, by decide, by decide, by decide, by decide⟩

/-- C7: when the final attempt ended in a transport error `e`: if the body
parses as the error envelope, `sign` returns the error "server responded with
error: " followed by the envelope's message; if the body does not parse,
`sign` returns `e` itself; in both cases `sign` returns no request object. -/
theorem sign_transport_error (s : gkeSigner X) (csr : CertificateSigningRequest) (e : Error)
    (herr : (s.signLoop csr).result.err = some e) :
    (∀ sre, s.env.Unmarshal (s.signLoop csr).result.body = some sre →
      (s.sign csr).ret = .error ⟨"server responded with error: " ++ sre.Error.Message⟩) ∧
    (s.env.Unmarshal (s.signLoop csr).result.body = none → (s.sign csr).ret = .error e) ∧
    (∀ signed, (s.sign csr).ret ≠ .ok signed) := by
  refine ⟨fun sre hsre => ?_, fun hnone => ?_, fun signed => ?_⟩
  · unfold gkeSigner.sign
    simp only [herr, gkeSigner.resultBodyError, hsre, gkeSigner.webhookError]
  · unfold gkeSigner.sign
    simp only [herr, gkeSigner.resultBodyError, hnone, gkeSigner.webhookError]
  · unfold gkeSigner.sign
    simp only [herr]
    split <;> simp

theorem sign_transport_error_witness :
    ((exampleSigner (fun _ =>
        { body := quotaBody, err := some ⟨"Internal error"⟩, statusCode := 500 })).sign R1).ret =
      .error ⟨"server responded with error: quota exceeded"⟩ ∧
    ((exampleSigner (fun _ =>
        { body := ascii "oops", err := some ⟨"Internal error"⟩, statusCode := 500 })).sign R1).ret =
      .error ⟨"Internal error"⟩ :=
  ⟨(sign_transport_error
      (exampleSigner (fun _ =>
        { body := quotaBody, err := some ⟨"Internal error"⟩, statusCode := 500 })) R1 ⟨"Internal error"⟩ (by decide)).1
      { Error := { Message := "quota exceeded" } } (by decide),
   (sign_transport_error
      (exampleSigner (fun _ =>
        { body := ascii "oops", err := some ⟨"Internal error"⟩, statusCode := 500 })) R1 ⟨"Internal error"⟩ (by decide)).2.1 (by decide)⟩

/-- C8, at a response with status 200 whose body fails to decode: `sign` fails
and emits one event, whose object is the freshly allocated `resultCSR` (here
still the zero object), not the request passed to `sign`. -/
theorem sign_decode_error_event_object :
    ((exampleSigner (fun _ => { body := [], statusCode := 200 })).sign R1).ret =
      .error ⟨"0-length response"⟩ ∧
    ((exampleSigner (fun _ => { body := [], statusCode := 200 })).sign R1).effects =
      [Effect.post R1,
       Effect.outboundRPC "container.webhook.Sign" .OutboundRPCStatusOK,
       Effect.event {} "Warning" "SigningError" "error while calling GKE: 0-length response"] ∧
    R1 ∉ eventObjects ((exampleSigner (fun _ => { body := [], statusCode := 200 })).sign R1).effects := by
  refine ⟨by decide, by decide, by decide⟩

/-- C10, at an attempt that the rest client completes without error with
status 101, a status code outside [200,299]: the attempt records one
outbound-call outcome for "container.webhook.Sign", and it is the success
outcome. -/
theorem signAttempt_status_101_records_ok :
    (restResult 101 []).receivable = true ∧
    (exampleSigner (fun _ => restResult 101 [])).signAttempt R1 {} =
      ({ statusCode := 101, result := { statusCode := 101 }, calls := 1,
         effects := [Effect.post R1,
                     Effect.outboundRPC "container.webhook.Sign" .OutboundRPCStatusOK] }, none) ∧
    outboundOutcomes
      ((exampleSigner (fun _ => restResult 101 [])).signAttempt R1 {}).1.effects
      = [("container.webhook.Sign", .OutboundRPCStatusOK)] := by
  refine ⟨by decide, by decide, by decide⟩

/-- An attempt at a failing status that the rest client reports as an error
(here 500) records the error outcome. -/
theorem signAttempt_status_500_records_error :
    outboundOutcomes
      ((exampleSigner (fun _ => restResult 500 quotaBody)).signAttempt R1 {}).1.effects
      = [("container.webhook.Sign", .OutboundRPCStatusError)] := by
  decide

/-! ## The validator set -/

/-- The first validator that recognizes the request decides the label. -/
theorem metricLabelOf_first (none : String) (csr : CertificateSigningRequest) (x : X)
    (v : csrValidator X) (post : List (csrValidator X)) :
    ∀ pre : List (csrValidator X), (∀ u ∈ pre, u.recognize csr x = false) →
      v.recognize csr x = true →
      metricLabelOf none csr x (pre ++ v :: post) = v.authFlowLabel := by
  intro pre
  induction pre with
  | nil => intro _ hv; simp [metricLabelOf, hv]
  | cons u us ih =>
    intro hpre hv
    have hu : u.recognize csr x = false := hpre u (List.mem_cons_self u us)
    simp only [List.cons_append, metricLabelOf, hu, Bool.false_eq_true, if_false]
    exact ih (fun w hw => hpre w (List.mem_cons_of_mem u hw)) hv

/-- When no validator recognizes the request the label is the sentinel. -/
theorem metricLabelOf_no_match (none : String) (csr : CertificateSigningRequest) (x : X) :
    ∀ vs : List (csrValidator X), (∀ u ∈ vs, u.recognize csr x = false) →
      metricLabelOf none csr x vs = none := by
  intro vs
  induction vs with
  | nil => intro _; rfl
  | cons u us ih =>
    intro h
    have hu : u.recognize csr x = false := h u (List.mem_cons_self u us)
    simp only [metricLabelOf, hu, Bool.false_eq_true, if_false]
    exact ih (fun w hw => h w (List.mem_cons_of_mem u hw))

/-- A validator list either recognizes the request nowhere or splits at its
first validator that does. -/
theorem validators_first_match (csr : CertificateSigningRequest) (x : X) :
    ∀ vs : List (csrValidator X), (∀ u ∈ vs, u.recognize csr x = false) ∨
      ∃ pre v post, vs = pre ++ v :: post ∧ (∀ u ∈ pre, u.recognize csr x = false) ∧
        v.recognize csr x = true := by
  intro vs
  induction vs with
  | nil => left; intro u hu; exact absurd hu (List.not_mem_nil u)
  | cons u us ih =>
    by_cases hu : u.recognize csr x = true
    · right
      exact ⟨[], u, us, rfl, fun w hw => absurd hw (List.not_mem_nil w), hu⟩
    · have hu2 : u.recognize csr x = false := by simpa using hu
      rcases ih with hall | ⟨pre, v, post, hsplit, hpre, hv⟩
      · left
        intro w hw
        rcases List.mem_cons.mp hw with rfl | hw2
        · exact hu2
        · exact hall w hw2
      · right
        refine ⟨u :: pre, v, post, by simp [hsplit], ?_, hv⟩
        intro w hw
        rcases List.mem_cons.mp hw with rfl | hw2
        · exact hu2
        · exact hpre w hw2

/-- C9: `metricLabel` returns the label of the first validator, in list order,
whose `recognize` returns true, whatever the validators after it do; it returns
`authFlowLabelNone` exactly when no validator recognizes the request or the
first one that does has `authFlowLabelNone` as its own label; for the empty
list it returns `authFlowLabelNone`. -/
theorem metricLabel_first_match (s : gkeSigner X) (csr : CertificateSigningRequest) (x : X) :
    (∀ pre v post, s.validators = pre ++ v :: post →
      (∀ u ∈ pre, u.recognize csr x = false) → v.recognize csr x = true →
        s.metricLabel csr x = v.authFlowLabel) ∧
    (s.metricLabel csr x = s.env.authFlowLabelNone ↔
      ((∀ u ∈ s.validators, u.recognize csr x = false) ∨
        ∃ pre v post, s.validators = pre ++ v :: post ∧
          (∀ u ∈ pre, u.recognize csr x = false) ∧ v.recognize csr x = true ∧
          v.authFlowLabel = s.env.authFlowLabelNone)) ∧
    (s.validators = [] → s.metricLabel csr x = s.env.authFlowLabelNone) := by
  have hfirst : ∀ pre v post, s.validators = pre ++ v :: post →
      (∀ u ∈ pre, u.recognize csr x = false) → v.recognize csr x = true →
        s.metricLabel csr x = v.authFlowLabel := by
    intro pre v post hsplit hpre hv
    unfold gkeSigner.metricLabel
    rw [hsplit]
    exact metricLabelOf_first _ csr x v post pre hpre hv
  refine ⟨hfirst, ⟨fun hnone => ?_, fun h => ?_⟩, fun hnil => ?_⟩
  · rcases validators_first_match csr x s.validators with hall | ⟨pre, v, post, hsplit, hpre, hv⟩
    · exact Or.inl hall
    · right
      refine ⟨pre, v, post, hsplit, hpre, hv, ?_⟩
      rw [← hfirst pre v post hsplit hpre hv]
      exact hnone
  · rcases h with hall | ⟨pre, v, post, hsplit, hpre, hv, hlabel⟩
    · exact metricLabelOf_no_match _ csr x s.validators hall
    · rw [hfirst pre v post hsplit hpre hv]
      exact hlabel
  · unfold gkeSigner.metricLabel
    rw [hnil]
    rfl

theorem metricLabel_first_match_witness :
    (exampleSigner (fun _ => {})).metricLabel R1 () = "first-flow" ∧
    ({ env := exampleEnv, validators := [] } : gkeSigner Unit).metricLabel R1 () = "none" :=
  ⟨(metricLabel_first_match (exampleSigner (fun _ => {})) R1 ()).1 []
      { name := "first", authFlowLabel := "first-flow", recognize := fun _ _ => true }
      [{ name := "second", authFlowLabel := "second-flow", recognize := fun _ _ => true }]
      rfl (fun u h => absurd h (List.not_mem_nil u)) rfl,
   (metricLabel_first_match { env := exampleEnv, validators := [] } R1 ()).2.2 rfl⟩

end CsrSigner
